import Mathlib

/-!
# Background task execution core — shallow embedding

A shallow embedding of the background-task subsystem of a chat-driven
coding-agent bot (`src/tasks/manager.py`, `src/tasks/repository.py`,
`src/tasks/heartbeat.py`, `src/tasks/models.py`, event shapes from
`src/events/types.py`), together with theorems settling the frozen claims
about it.

Modelling conventions:
* Python `float` money/cost values are modelled as `ℚ`; `datetime` instants
  are modelled as rational seconds (the claims never depend on binary
  floating-point rounding).
* The SQLite table `background_tasks` is modelled as a list of records; each
  SQL `UPDATE ... WHERE task_id = ?` becomes a map over the list guarded by
  the task-id, and `SELECT ... LIMIT 1` becomes `List.find?`.
* `async` suspension and the asyncio machinery are erased: each claim is
  about one sequential interleaving, so the coroutines become pure state
  transformers.  The provider (`LLMProvider.execute`) is a parameter: a
  behaviour mapping the attempt number to the stream events it emits and to
  how the call finishes.
-/

namespace TaskCore

/-- Task status strings from `src/tasks/models.py` (`running`, `completed`,
`failed`, `stopped`). -/
inductive Status
  | running
  | completed
  | failed
  | stopped
deriving DecidableEq, Repr

/-- A `{sha, message}` commit entry as produced by `_collect_commits`. -/
abbrev Commit := String × String

/-- `BackgroundTask` (pydantic model, `src/tasks/models.py`).  Timestamps are
rational seconds; costs are rational. -/
structure BackgroundTask where
  task_id : String
  user_id : Int
  project_path : String
  prompt : String
  status : Status
  session_id : Option String
  created_at : ℚ
  finished_at : Option ℚ
  total_cost : ℚ
  total_turns : Nat
  last_output : Option String
  last_activity_at : ℚ
  result_summary : Option String
  error_message : Option String
  commits : List Commit
  chat_id : Option Int
  message_thread_id : Option Int
deriving DecidableEq, Repr

/-- The `background_tasks` table. -/
abbrev Store := List BackgroundTask

/-- Python truthiness of an optional string (`None` and `""` are falsy). -/
def truthyStr : Option String → Bool
  | none => false
  | some s => s ≠ ""

/-- Python `a or b` on an optional string and a string default
(e.g. `response.error_message or "LLM execution failed"`,
`task.last_output or ""`). -/
def pyOrStr (a : Option String) (b : String) : String :=
  match a with
  | some s => if s = "" then b else s
  | none => b

/-- `SELECT * FROM background_tasks WHERE task_id = ?` point lookup
(`TaskRepository.get`). -/
def getTask (store : Store) (task_id : String) : Option BackgroundTask :=
  store.find? (fun t => t.task_id == task_id)

/-- The keyword arguments accepted by `TaskRepository.update_status`
(`result_summary`, `error_message`, `session_id`, `commits`); `none` means
the keyword is absent from `kwargs`. -/
structure StatusKwargs where
  result_summary : Option String := none
  error_message : Option String := none
  session_id : Option (Option String) := none
  commits : Option (List Commit) := none
deriving DecidableEq, Repr

/-- The effect of `TaskRepository.update_status` on one matching row:
`status` and `last_activity_at` are always set; `finished_at` is set only
when the new status is `completed` or `failed` (the code tests
`status in ("completed", "failed")`); each keyword field is written only
when present. -/
def applyStatusUpdate (t : BackgroundTask) (status : Status)
    (kw : StatusKwargs) (now : ℚ) : BackgroundTask :=
  { t with
    status := status
    last_activity_at := now
    finished_at :=
      if status = .completed ∨ status = .failed then some now else t.finished_at
    result_summary :=
      match kw.result_summary with
      | some v => some v
      | none => t.result_summary
    error_message :=
      match kw.error_message with
      | some v => some v
      | none => t.error_message
    session_id :=
      match kw.session_id with
      | some v => v
      | none => t.session_id
    commits :=
      match kw.commits with
      | some v => v
      | none => t.commits }

/-- `TaskRepository.update_status`: `UPDATE background_tasks SET ... WHERE
task_id = ?`. -/
def update_status (store : Store) (task_id : String) (status : Status)
    (kw : StatusKwargs) (now : ℚ) : Store :=
  store.map (fun t => if t.task_id == task_id then applyStatusUpdate t status kw now else t)

/-- The effect of `TaskRepository.update_progress` on one matching row:
`total_cost = total_cost + ?`, `total_turns = total_turns + 1`,
`last_output = ?` (written unconditionally, `NULL` when the argument is
absent), `last_activity_at = ?`. -/
def applyProgressUpdate (t : BackgroundTask) (cost : ℚ)
    (last_output : Option String) (now : ℚ) : BackgroundTask :=
  { t with
    total_cost := t.total_cost + cost
    total_turns := t.total_turns + 1
    last_output := last_output
    last_activity_at := now }

/-- `TaskRepository.update_progress`. -/
def update_progress (store : Store) (task_id : String) (cost : ℚ)
    (last_output : Option String) (now : ℚ) : Store :=
  store.map (fun t => if t.task_id == task_id then applyProgressUpdate t cost last_output now else t)

/-- `TaskRepository.get_running_for_project`: first row with the given
project path and status `running` (`LIMIT 1`). -/
def get_running_for_project (store : Store) (project_path : String) :
    Option BackgroundTask :=
  store.find? (fun t => t.project_path == project_path && t.status == .running)

/-- `TaskRepository.get_all_running`. -/
def get_all_running (store : Store) : List BackgroundTask :=
  store.filter (fun t => t.status == .running)

/-- `TaskRepository.count_running`: `SELECT COUNT(*) ... WHERE status =
'running'`. -/
def count_running (store : Store) : Nat :=
  (get_all_running store).length

/-! ## Events (`src/events/types.py`, background-task events) -/

/-- The five background-task event dataclasses published on the bus. -/
inductive Event
  | started (task_id : String) (project_path : String) (prompt : String)
      (user_id : Int) (chat_id : Int) (message_thread_id : Option Int)
  | progress (task_id : String) (elapsed_seconds : Int) (cost : ℚ)
      (stage : String) (chat_id : Int) (message_thread_id : Option Int)
  | completed (task_id : String) (duration_seconds : Int) (cost : ℚ)
      (commits : List Commit) (result_summary : String)
      (chat_id : Int) (message_thread_id : Option Int)
  | failed (task_id : String) (duration_seconds : Int) (cost : ℚ)
      (error_message : String) (last_output : String)
      (chat_id : Int) (message_thread_id : Option Int)
  | timeout (task_id : String) (duration_seconds : Int) (cost : ℚ)
      (idle_seconds : Int) (chat_id : Int) (message_thread_id : Option Int)
deriving DecidableEq, Repr

/-! ## Settings and provider interface -/

/-- The settings fields consumed by `TaskManager` and `HeartbeatService`. -/
structure Settings where
  max_concurrent_tasks : Nat
  task_max_cost : ℚ
  model_background : Option String := none
deriving Repr

/-- `RETRY_DELAY_SECONDS = 30` (`src/tasks/manager.py`). -/
def RETRY_DELAY_SECONDS : ℚ := 30

/-- An intermediate stream event passed to the stream callback.  The
callback reads `event.cost` (with `getattr(..., 0.0) or 0.0`),
`event.content` and `event.tool_name`. -/
structure StreamEvent where
  cost : Option ℚ
  content : Option String
  tool_name : Option String
deriving DecidableEq, Repr

/-- `LLMResponse` (`src/llm/interface.py`). -/
structure LLMResponse where
  content : String
  session_id : Option String
  cost : ℚ
  duration_ms : Int
  num_turns : Nat
  is_error : Bool
  error_message : Option String := none
deriving DecidableEq, Repr

/-- How one `Provider.execute` call ends, after the stream events it
emitted: it returns a response, raises a non-cancellation exception with a
message, or is cancelled (`asyncio.CancelledError`). -/
inductive AttemptFinish
  | returns (resp : LLMResponse)
  | raises (msg : String)
  | cancels
deriving DecidableEq, Repr

/-- One `Provider.execute` call: the stream events delivered to the
callback, in order, and how the call finishes if the callback never
aborts it. -/
structure AttemptCall where
  events : List StreamEvent
  finish : AttemptFinish
deriving DecidableEq, Repr

/-- A provider behaviour: what `Provider.execute` does on each attempt
(attempt `0` is the initial call, attempt `1` the retry). -/
def Behavior := Nat → AttemptCall

/-! ## The stream callback (`stream_callback` inside `_run_task`) -/

/-- `getattr(event, "cost", 0.0) or 0.0`: an absent or falsy (`None`/`0.0`)
cost reads as `0`. -/
def streamCost (e : StreamEvent) : ℚ :=
  e.cost.getD 0

/-- `getattr(event, "content", None) or getattr(event, "tool_name", None)
or None`: the first truthy of content and tool name, else `None`. -/
def streamOutput (e : StreamEvent) : Option String :=
  if truthyStr e.content then e.content
  else if truthyStr e.tool_name then e.tool_name
  else none

/-- Two-decimal rendering used by the `f"...${cost:.2f}..."` message (the
binary-float rounding of `%.2f` is abstracted to rational rounding). -/
def fmt2 (q : ℚ) : String :=
  let n : Int := round (q * 100)
  let whole := n / 100
  let frac := (n % 100).natAbs
  toString whole ++ "." ++ (if frac < 10 then "0" else "") ++ toString frac

/-- The message of `CostLimitExceeded(task_id, cost, limit)`. -/
def costLimitMsg (task_id : String) (cost limit : ℚ) : String :=
  "Task " ++ task_id ++ " exceeded cost limit: $" ++ fmt2 cost ++ " > $" ++ fmt2 limit

/-- State threaded through successive stream-callback invocations: the
store, the closure's `accumulated_cost`, and how many events have been
processed. -/
structure StreamState where
  store : Store
  acc : ℚ
  processed : Nat
deriving Repr

/-- Run the stream callback over the provider's events in order.  Each
event adds its cost to the accumulator, persists the delta and output via
`update_progress`, then checks `accumulated_cost > cost_limit`; on breach
the callback raises `CostLimitExceeded`, aborting the provider call (the
`Bool` result: `true` = aborted, remaining events unprocessed). -/
def processStream (limit : ℚ) (task_id : String) (now : ℚ) :
    StreamState → List StreamEvent → StreamState × Bool
  | st, [] => (st, false)
  | st, e :: rest =>
    let delta := streamCost e
    let acc := st.acc + delta
    let store := update_progress st.store task_id delta (streamOutput e) now
    let st' : StreamState := ⟨store, acc, st.processed + 1⟩
    if acc > limit then (st', true)
    else processStream limit task_id now st' rest

/-! ## Task manager (`src/tasks/manager.py`) -/

/-- Admission errors raised by `start_task` (both as `ValueError` in the
code, distinguished by message). -/
inductive AdmissionError
  | projectBusy (existing_task_id : String)
  | capacityExceeded (limit : Nat)
deriving DecidableEq, Repr

/-- `TaskManager.start_task`.  Admission: a running record for the project
fails with `ProjectBusy`; a running count at or above
`max_concurrent_tasks` fails with `CapacityExceeded`.  Otherwise the new
`running` record (fresh id supplied by the caller, standing for
`uuid.uuid4().hex[:8]`) is persisted and a `Started` event is published.
The result carries the store and the published events; admission failures
happen before any write, so they return the store unchanged with no
events. -/
def start_task (S : Settings) (store : Store) (prompt project_path : String)
    (user_id chat_id : Int) (message_thread_id : Option Int)
    (session_id : Option String) (fresh_id : String) (now : ℚ) :
    Store × List Event × Except AdmissionError String :=
  match get_running_for_project store project_path with
  | some existing => (store, [], .error (.projectBusy existing.task_id))
  | none =>
    if count_running store ≥ S.max_concurrent_tasks then
      (store, [], .error (.capacityExceeded S.max_concurrent_tasks))
    else
      let task : BackgroundTask :=
        { task_id := fresh_id
          user_id := user_id
          project_path := project_path
          prompt := prompt
          status := .running
          session_id := session_id
          created_at := now
          finished_at := none
          total_cost := 0
          total_turns := 0
          last_output := none
          last_activity_at := now
          result_summary := none
          error_message := none
          commits := []
          chat_id := some chat_id
          message_thread_id := message_thread_id }
      (store ++ [task],
       [.started fresh_id project_path prompt user_id chat_id message_thread_id],
       .ok fresh_id)

/-- `TaskManager.stop_task`: cancels the in-memory handle (erased here),
stops the heartbeat, and calls `update_status(task_id, "stopped")` with no
keyword arguments — unconditionally, whatever the record's current status.
No event is published. -/
def stop_task (store : Store) (task_id : String) (now : ℚ) : Store :=
  update_status store task_id .stopped {} now

/-- The `error_message` written by `TaskManager.recover` ("the bot was
restarted, the task was interrupted"). -/
def recoverMessage : String := "Бот был перезапущен, задача прервана"

/-- `TaskManager.recover`: for every record returned by
`get_all_running`, `update_status(id, "failed", error_message=...)`.
No events are published (the returned event list is the complete set of
publications this code path performs). -/
def recover (store : Store) (now : ℚ) : Store × List Event :=
  ((get_all_running store).foldl
    (fun s t => update_status s t.task_id .failed { error_message := some recoverMessage } now)
    store,
   [])

/-- `response.content[:500] if response.content else ""`. -/
def summaryOf (content : String) : String :=
  if content = "" then "" else content.take 500

/-- How one attempt of the retry loop in `_run_task` ends. -/
inductive AttemptOutcome
  | success
  | costLimited
  | wasCancelled
  | transient (msg : String)
deriving DecidableEq, Repr

/-- One iteration of the `for attempt in range(2)` loop of
`TaskManager._run_task`: run the provider call with the stream callback,
then act on how it ends.

* Callback raises `CostLimitExceeded` (it aborts the call before the
  provider can finish): mark the record `failed` with the exception's
  message, publish `Failed` with the closure's accumulated cost and the
  launch-time `task.last_output or ""`, and leave the loop.
* `asyncio.CancelledError`: re-raise — no store update, no event.
* Any other exception, or a response with `is_error=true` (re-raised as
  `RuntimeError(response.error_message or "LLM execution failed")`): the
  loop's generic handler records it as `last_error` and moves on.
* Success: collect commits (the git subprocess result is the `commits`
  parameter; query failures yield `[]`), mark the record `completed` with
  the truncated summary, session id and commits, and publish `Completed`
  with cost `accumulated + response.cost`.

Returns the store, the events published by this attempt, the accumulator
after the attempt, and the outcome. -/
def runAttempt (S : Settings) (task : BackgroundTask) (commits : List Commit)
    (startTime now : ℚ) (store : Store) (acc0 : ℚ) (call : AttemptCall) :
    Store × List Event × ℚ × AttemptOutcome :=
  let p := processStream S.task_max_cost task.task_id now ⟨store, acc0, 0⟩ call.events
  let st := p.1
  let aborted := p.2
  if aborted then
    let msg := costLimitMsg task.task_id st.acc S.task_max_cost
    let duration := Rat.floor (now - startTime)
    let store' := update_status st.store task.task_id .failed
      { error_message := some msg } now
    (store',
     [.failed task.task_id duration st.acc msg (pyOrStr task.last_output "")
        (task.chat_id.getD 0) task.message_thread_id],
     st.acc, .costLimited)
  else
    match call.finish with
    | .cancels => (st.store, [], st.acc, .wasCancelled)
    | .raises msg => (st.store, [], st.acc, .transient msg)
    | .returns resp =>
      if resp.is_error then
        (st.store, [], st.acc,
         .transient (pyOrStr resp.error_message "LLM execution failed"))
      else
        let result_summary := summaryOf resp.content
        let store' := update_status st.store task.task_id .completed
          { result_summary := some result_summary
            session_id := some resp.session_id
            commits := some commits } now
        let duration := Rat.floor (now - startTime)
        (store',
         [.completed task.task_id duration (st.acc + resp.cost) commits
            result_summary (task.chat_id.getD 0) task.message_thread_id],
         st.acc, .success)

/-- The result of `TaskManager._run_task`: final store, events published
(in order), number of `Provider.execute` invocations, retry delays slept,
and whether the coroutine unwound via `CancelledError`. -/
structure RunResult where
  store : Store
  events : List Event
  providerCalls : Nat
  sleeps : List ℚ
  cancelled : Bool
deriving Repr

/-- `TaskManager._run_task`: at most two attempts (initial + one retry
after `RETRY_DELAY_SECONDS`).  `accumulated_cost` is initialised once,
before the loop, so a retry keeps accumulating on top of the first
attempt.  Success, cost-limit failure and cancellation leave the loop at
once; a transient failure falls through to the next attempt, and after the
second transient failure the record is marked `failed` with the last
exception's message and a `Failed` event is published carrying the
accumulated cost and the launch-time `task.last_output or ""`. -/
def runTask (S : Settings) (task : BackgroundTask) (behavior : Behavior)
    (commits : List Commit) (startTime now : ℚ) (store : Store) : RunResult :=
  let r1 := runAttempt S task commits startTime now store 0 (behavior 0)
  match r1.2.2.2 with
  | .success => ⟨r1.1, r1.2.1, 1, [], false⟩
  | .costLimited => ⟨r1.1, r1.2.1, 1, [], false⟩
  | .wasCancelled => ⟨r1.1, r1.2.1, 1, [], true⟩
  | .transient _ =>
    let r2 := runAttempt S task commits startTime now r1.1 r1.2.2.1 (behavior 1)
    match r2.2.2.2 with
    | .success => ⟨r2.1, r1.2.1 ++ r2.2.1, 2, [RETRY_DELAY_SECONDS], false⟩
    | .costLimited => ⟨r2.1, r1.2.1 ++ r2.2.1, 2, [RETRY_DELAY_SECONDS], false⟩
    | .wasCancelled => ⟨r2.1, r1.2.1 ++ r2.2.1, 2, [RETRY_DELAY_SECONDS], true⟩
    | .transient msg2 =>
      let duration := Rat.floor (now - startTime)
      let store3 := update_status r2.1 task.task_id .failed
        { error_message := some msg2 } now
      ⟨store3,
       r1.2.1 ++ r2.2.1 ++
         [.failed task.task_id duration r2.2.2.1 msg2 (pyOrStr task.last_output "")
            (task.chat_id.getD 0) task.message_thread_id],
       2, [RETRY_DELAY_SECONDS], false⟩

/-! ## Heartbeat service (`src/tasks/heartbeat.py`) -/

/-- Case-insensitive substring test on character lists (the stage regexes
are plain alternations of literals compiled with `re.I`, so
`pattern.search(s)` is exactly "some alternative occurs in `s`,
case-insensitively"). -/
def containsSub (needle : List Char) : List Char → Bool
  | [] => needle.isEmpty
  | c :: rest => needle.isPrefixOf (c :: rest) || containsSub needle rest

/-- `pattern.search(last_output)` for one alternation-of-literals pattern
compiled with `re.IGNORECASE`. -/
def patternMatches (alternatives : List String) (s : String) : Bool :=
  alternatives.any (fun kw => containsSub kw.toLower.toList s.toLower.toList)

/-- `STAGE_PATTERNS`: the fixed ordered table of (alternatives, label)
pairs from `src/tasks/heartbeat.py` (labels: "exploring the code",
"writing code", "running tests", "committing", "planning",
"installing dependencies"). -/
def STAGE_PATTERNS : List (List String × String) :=
  [ (["Read", "Glob", "Grep", "searching"], "исследует код"),
    (["Write", "Edit", "creating file"], "пишет код"),
    (["pytest", "npm test", "jest", "make test"], "запускает тесты"),
    (["git commit", "git push"], "коммитит"),
    (["thinking", "planning", "analyzing"], "планирует"),
    (["pip install", "npm install", "poetry"], "устанавливает зависимости") ]

/-- The default stage label ("working"). -/
def defaultStage : String := "работает"

/-- `HeartbeatService.parse_stage`: `if not last_output` (None or empty)
returns the default; otherwise the label of the first matching pattern,
else the default. -/
def parse_stage (last_output : Option String) : String :=
  match last_output with
  | none => defaultStage
  | some s =>
    if s = "" then defaultStage
    else
      match STAGE_PATTERNS.find? (fun p => patternMatches p.1 s) with
      | some p => p.2
      | none => defaultStage

/-- What one wake-up of the supervisor loop (`HeartbeatService._loop`)
does after its sleep: exit silently, publish `Timeout` and exit, or
publish `Progress` and keep looping. -/
inductive TickResult
  | exitSilent
  | timeoutEmitted (ev : Event)
  | progressEmitted (ev : Event)
deriving DecidableEq, Repr

/-- One tick of `HeartbeatService._loop`: fetch the record; if missing or
not `running`, break; compute `elapsed = now - created_at` and
`idle = now - last_activity_at`; if `idle > timeout` publish `Timeout`
(`duration_seconds=int(elapsed)`, `idle_seconds=int(idle)`) and break;
otherwise publish `Progress` with the classified stage. -/
def heartbeatTick (store : Store) (task_id : String) (timeout : ℚ)
    (now : ℚ) : TickResult :=
  match getTask store task_id with
  | none => .exitSilent
  | some task =>
    if task.status ≠ .running then .exitSilent
    else
      let elapsed := now - task.created_at
      let idle := now - task.last_activity_at
      if idle > timeout then
        .timeoutEmitted (.timeout task_id (Rat.floor elapsed) task.total_cost
          (Rat.floor idle) (task.chat_id.getD 0) task.message_thread_id)
      else
        .progressEmitted (.progress task_id (Rat.floor elapsed) task.total_cost
          (parse_stage task.last_output) (task.chat_id.getD 0) task.message_thread_id)

/-- The supervisor loop over a (finite) schedule of wake-ups, each seeing
the store as it then is and the current time: the events it publishes, in
order.  A silent exit or a `Timeout` terminates the loop (`break`); a
`Progress` continues to the next tick. -/
def heartbeatLoop (task_id : String) (timeout : ℚ) :
    List (Store × ℚ) → List Event
  | [] => []
  | (store, now) :: rest =>
    match heartbeatTick store task_id timeout now with
    | .exitSilent => []
    | .timeoutEmitted ev => [ev]
    | .progressEmitted ev => ev :: heartbeatLoop task_id timeout rest

/-! ## Timestamp handling in `BackgroundTask.from_row`
(`src/tasks/models.py`) -/

/-- A Python `datetime`: the instant it denotes (seconds) and whether it
is timezone-aware (`tzinfo` set). -/
structure PyDatetime where
  seconds : Int
  tzaware : Bool
deriving DecidableEq, Repr

/-- A timestamp column value as handed to `BackgroundTask.from_row`: an
ISO-8601 string (which may or may not carry a UTC offset), an
already-parsed `datetime` (sqlite3 converters), or SQL `NULL`. -/
inductive RowTimestamp
  | str (seconds : Int) (hasOffset : Bool)
  | dt (d : PyDatetime)
  | null
deriving DecidableEq, Repr

/-- `datetime.fromisoformat`: a string with a UTC offset parses to an
aware `datetime`, a string without one parses to a naive `datetime`; the
function performs no timezone normalisation. -/
def fromisoformat (seconds : Int) (hasOffset : Bool) : PyDatetime :=
  ⟨seconds, hasOffset⟩

/-- The per-field timestamp handling in `BackgroundTask.from_row`: string
values are parsed with `datetime.fromisoformat`, `datetime` values pass
through unchanged, `NULL` stays absent.  (Pydantic validation keeps a
`datetime` instance as-is, naive or aware.) -/
def from_row_timestamp : RowTimestamp → Option PyDatetime
  | .str v off => some (fromisoformat v off)
  | .dt d => some d
  | .null => none

/-- Python `datetime` subtraction: defined between two naive or two aware
values; mixing naive and aware raises `TypeError` (modelled as `none`).
This is the arithmetic `HeartbeatService._loop` performs between
`datetime.now(timezone.utc)` (aware) and the record's timestamps. -/
def pyDatetimeSub (a b : PyDatetime) : Option Int :=
  if a.tzaware = b.tzaware then some (a.seconds - b.seconds) else none

/-! ## Derived notions used by the theorems -/

/-- Sum of the cost deltas the stream callback reads from a list of
events. -/
def sumDeltas (evs : List StreamEvent) : ℚ :=
  (evs.map streamCost).sum

/-- The store after the stream callback has persisted a list of events via
`update_progress`, in order. -/
def applyStreamPrefix (task_id : String) (now : ℚ) (store : Store)
    (evs : List StreamEvent) : Store :=
  evs.foldl (fun s e => update_progress s task_id (streamCost e) (streamOutput e) now) store

/-- The cumulative effect of a list of stream events on one record. -/
def applyProgressList (evs : List StreamEvent) (now : ℚ)
    (t : BackgroundTask) : BackgroundTask :=
  evs.foldl (fun t e => applyProgressUpdate t (streamCost e) (streamOutput e) now) t

/-- Does this `AttemptFinish` count as a transient failure in `_run_task`
(a raised non-cancellation exception, or a response with
`is_error=true`)? -/
def transientFinish : AttemptFinish → Bool
  | .returns resp => resp.is_error
  | .raises _ => true
  | .cancels => false

/-- Shared example record: a freshly launched running task. -/
def exTask : BackgroundTask :=
  { task_id := "t1", user_id := 42, project_path := "/p/app", prompt := "do it",
    status := .running, session_id := none, created_at := 0, finished_at := none,
    total_cost := 0, total_turns := 0, last_output := none, last_activity_at := 0,
    result_summary := none, error_message := none, commits := [],
    chat_id := some 100, message_thread_id := none }

/-- Shared example record: a task that finished successfully. -/
def exTaskCompleted : BackgroundTask :=
  { exTask with status := .completed, finished_at := some 3,
                result_summary := some "Done." }

/-- Shared example settings. -/
def exSettings : Settings :=
  { max_concurrent_tasks := 3, task_max_cost := 1 }

/-! ## Helper lemmas -/

lemma applyStatusUpdate_task_id (t : BackgroundTask) (st : Status)
    (kw : StatusKwargs) (now : ℚ) :
    (applyStatusUpdate t st kw now).task_id = t.task_id := rfl

lemma applyProgressUpdate_task_id (t : BackgroundTask) (c : ℚ)
    (o : Option String) (now : ℚ) :
    (applyProgressUpdate t c o now).task_id = t.task_id := rfl

/-- A guarded per-id map (the shape of every `UPDATE ... WHERE task_id = ?`)
commutes with the point lookup, provided the update preserves the id. -/
lemma getTask_map_guard (s : Store) (id : String)
    (f : BackgroundTask → BackgroundTask)
    (hf : ∀ t, (f t).task_id = t.task_id) :
    getTask (s.map fun t => if t.task_id == id then f t else t) id =
      (getTask s id).map f := by
  induction s with
  | nil => rfl
  | cons t rest ih =>
    by_cases h : t.task_id = id
    · simp [getTask, List.find?_cons, h, hf t]
    · simp only [getTask, List.map_cons] at ih ⊢
      rw [if_neg (by simp [h]),
          List.find?_cons_of_neg _ (by simp [h]),
          List.find?_cons_of_neg _ (by simp [h])]
      exact ih

lemma getTask_update_status (s : Store) (id : String) (st : Status)
    (kw : StatusKwargs) (now : ℚ) :
    getTask (update_status s id st kw now) id =
      (getTask s id).map (fun t => applyStatusUpdate t st kw now) :=
  getTask_map_guard s id _ (fun t => applyStatusUpdate_task_id t st kw now)

lemma getTask_update_progress (s : Store) (id : String) (c : ℚ)
    (o : Option String) (now : ℚ) :
    getTask (update_progress s id c o now) id =
      (getTask s id).map (fun t => applyProgressUpdate t c o now) :=
  getTask_map_guard s id _ (fun t => applyProgressUpdate_task_id t c o now)

lemma sumDeltas_nil : sumDeltas [] = 0 := rfl

lemma sumDeltas_cons (e : StreamEvent) (evs : List StreamEvent) :
    sumDeltas (e :: evs) = streamCost e + sumDeltas evs := by
  simp [sumDeltas]

/-- When no prefix of the stream breaches the limit, the callback processes
every event, the accumulator gains the total of the deltas, and the call is
not aborted. -/
lemma processStream_no_abort (limit : ℚ) (tid : String) (now : ℚ) :
    ∀ (evs : List StreamEvent) (st : StreamState),
      (∀ j, j < evs.length → st.acc + sumDeltas (evs.take (j + 1)) ≤ limit) →
      processStream limit tid now st evs =
        (⟨applyStreamPrefix tid now st.store evs, st.acc + sumDeltas evs,
          st.processed + evs.length⟩, false) := by
  intro evs
  induction evs with
  | nil =>
    intro st _
    simp [processStream, applyStreamPrefix, sumDeltas_nil]
  | cons e rest ih =>
    intro st h
    have h0 : st.acc + streamCost e ≤ limit := by
      have := h 0 (by simp)
      simpa [sumDeltas_cons, sumDeltas_nil] using this
    have hnot : ¬ (st.acc + streamCost e > limit) := not_lt.mpr h0
    simp only [processStream, hnot, if_false]
    rw [ih ⟨update_progress st.store tid (streamCost e) (streamOutput e) now,
          st.acc + streamCost e, st.processed + 1⟩ ?hnext]
    · simp only [applyStreamPrefix, List.foldl_cons, sumDeltas_cons,
        List.length_cons, Prod.mk.injEq, StreamState.mk.injEq]
      refine ⟨⟨?_, ?_, ?_⟩, ?_⟩ <;> first | trivial | ring | omega
    case hnext =>
      intro j hj
      have := h (j + 1) (by simpa using Nat.succ_lt_succ hj)
      simpa [List.take_succ_cons, sumDeltas_cons, add_assoc] using this

/-- When the running total first breaches the limit at event `k`, the
callback processes exactly the events up to and including `k` (each
persisted via `update_progress`), accumulates exactly their deltas, and
aborts the provider call there. -/
lemma processStream_abort (limit : ℚ) (tid : String) (now : ℚ) :
    ∀ (evs : List StreamEvent) (st : StreamState) (k : Nat),
      k < evs.length →
      (∀ j, j < k → st.acc + sumDeltas (evs.take (j + 1)) ≤ limit) →
      st.acc + sumDeltas (evs.take (k + 1)) > limit →
      processStream limit tid now st evs =
        (⟨applyStreamPrefix tid now st.store (evs.take (k + 1)),
          st.acc + sumDeltas (evs.take (k + 1)), st.processed + (k + 1)⟩, true) := by
  intro evs
  induction evs with
  | nil =>
    intro st k hk
    exact absurd hk (by simp)
  | cons e rest ih =>
    intro st k hk hle hgt
    cases k with
    | zero =>
      have h0 : st.acc + streamCost e > limit := by
        simpa [List.take_succ_cons, sumDeltas_cons, sumDeltas_nil] using hgt
      simp [processStream, h0, List.take_succ_cons, applyStreamPrefix,
        sumDeltas_cons, sumDeltas_nil]
    | succ k' =>
      have h0 : st.acc + streamCost e ≤ limit := by
        have := hle 0 (Nat.succ_pos k')
        simpa [sumDeltas_cons, sumDeltas_nil] using this
      have hnot : ¬ (st.acc + streamCost e > limit) := not_lt.mpr h0
      simp only [processStream, hnot, if_false]
      rw [ih ⟨update_progress st.store tid (streamCost e) (streamOutput e) now,
            st.acc + streamCost e, st.processed + 1⟩ k'
            (by simpa using Nat.lt_of_succ_lt_succ hk) ?hle ?hgt]
      · simp only [List.take_succ_cons, applyStreamPrefix, List.foldl_cons,
          sumDeltas_cons, Prod.mk.injEq, StreamState.mk.injEq]
        refine ⟨⟨?_, ?_, ?_⟩, ?_⟩ <;> first | trivial | ring | omega
      case hle =>
        intro j hj
        have := hle (j + 1) (Nat.succ_lt_succ hj)
        simpa [List.take_succ_cons, sumDeltas_cons, add_assoc] using this
      case hgt =>
        have := hgt
        simpa [List.take_succ_cons, sumDeltas_cons, add_assoc] using this

/-- Lookup commutes with the fold of `update_progress` calls performed by a
stream prefix. -/
lemma getTask_applyStreamPrefix (tid : String) (now : ℚ) :
    ∀ (evs : List StreamEvent) (s : Store),
      getTask (applyStreamPrefix tid now s evs) tid =
        (getTask s tid).map (applyProgressList evs now) := by
  intro evs
  induction evs with
  | nil =>
    intro s
    simp [applyStreamPrefix, applyProgressList]
    cases getTask s tid <;> rfl
  | cons e rest ih =>
    intro s
    simp only [applyStreamPrefix, applyProgressList, List.foldl_cons]
    rw [show ∀ l, List.foldl
        (fun s e => update_progress s tid (streamCost e) (streamOutput e) now)
        (update_progress s tid (streamCost e) (streamOutput e) now) l =
        applyStreamPrefix tid now
          (update_progress s tid (streamCost e) (streamOutput e) now) l
      from fun _ => rfl]
    rw [ih, getTask_update_progress]
    cases getTask s tid <;> rfl

/-- The record is still present (same position predicate) after a stream
prefix has been processed: `processStream` only issues
`update_progress` calls. -/
lemma processStream_store (limit : ℚ) (tid : String) (now : ℚ) :
    ∀ (evs : List StreamEvent) (st : StreamState), ∃ pre : List StreamEvent,
      (processStream limit tid now st evs).1.store =
        applyStreamPrefix tid now st.store pre := by
  intro evs
  induction evs with
  | nil =>
    intro st
    exact ⟨[], rfl⟩
  | cons e rest ih =>
    intro st
    simp only [processStream]
    by_cases h : st.acc + streamCost e > limit
    · refine ⟨[e], ?_⟩
      simp [h, applyStreamPrefix]
    · simp only [h, if_false]
      obtain ⟨pre, hpre⟩ := ih
        ⟨update_progress st.store tid (streamCost e) (streamOutput e) now,
         st.acc + streamCost e, st.processed + 1⟩
      exact ⟨e :: pre, by simpa [applyStreamPrefix] using hpre⟩

/-- Applying the same `update_status` twice in a row to one record is the
same as applying it once. -/
lemma applyStatusUpdate_idem (t : BackgroundTask) (st : Status)
    (kw : StatusKwargs) (now : ℚ) :
    applyStatusUpdate (applyStatusUpdate t st kw now) st kw now =
      applyStatusUpdate t st kw now := by
  simp only [applyStatusUpdate]
  cases kw with
  | mk rs em si cm =>
    cases rs <;> cases em <;> cases si <;> cases cm <;>
      cases st <;> rfl

lemma length_update_status (s : Store) (id : String) (st : Status)
    (kw : StatusKwargs) (now : ℚ) :
    (update_status s id st kw now).length = s.length := by
  simp [update_status]

/-- The fold performed by `recover` preserves the table length. -/
lemma length_recover_fold (kw : StatusKwargs) (now : ℚ) :
    ∀ (os : List BackgroundTask) (s : Store),
      (os.foldl (fun acc t => update_status acc t.task_id .failed kw now) s).length
        = s.length := by
  intro os
  induction os with
  | nil => intro s; rfl
  | cons o rest ih =>
    intro s
    simp only [List.foldl_cons]
    rw [ih, length_update_status]

lemma getElem_update_status (s : Store) (id : String) (st : Status)
    (kw : StatusKwargs) (now : ℚ) (i : Nat) (hi : i < s.length)
    (hi2 : i < (update_status s id st kw now).length) :
    (update_status s id st kw now)[i] =
      if s[i].task_id == id then applyStatusUpdate s[i] st kw now else s[i] := by
  simp [update_status]

/-- Pointwise description of the fold performed by `recover`: a row is
rewritten to `failed` (with the given kwargs) exactly when its id occurs
among the processed orphans. -/
lemma getElem_recover_fold (kw : StatusKwargs) (now : ℚ) :
    ∀ (os : List BackgroundTask) (s : Store) (i : Nat) (hi : i < s.length)
      (hi2 : i <
        (os.foldl (fun acc t => update_status acc t.task_id .failed kw now) s).length),
      (os.foldl (fun acc t => update_status acc t.task_id .failed kw now) s)[i] =
        if s[i].task_id ∈ os.map BackgroundTask.task_id
        then applyStatusUpdate s[i] .failed kw now
        else s[i] := by
  intro os
  induction os with
  | nil =>
    intro s i hi hi2
    simp
  | cons o rest ih =>
    intro s i hi hi2
    simp only [List.foldl_cons] at hi2 ⊢
    have h1 : i < (update_status s o.task_id .failed kw now).length := by
      rw [length_update_status]; exact hi
    rw [ih (update_status s o.task_id .failed kw now) i h1 hi2,
        getElem_update_status s o.task_id .failed kw now i hi h1]
    by_cases h : s[i].task_id = o.task_id
    · by_cases hm : s[i].task_id ∈ rest.map BackgroundTask.task_id
      · simp [h, hm, applyStatusUpdate_task_id, applyStatusUpdate_idem]
      · simp [h, hm, applyStatusUpdate_task_id, applyStatusUpdate_idem]
    · by_cases hm : s[i].task_id ∈ rest.map BackgroundTask.task_id
      · simp [h, hm, applyStatusUpdate_task_id]
      · simp [h, hm, applyStatusUpdate_task_id]

/-- After the fold performed by `recover` has processed a superset of the
running rows, no row is left `running`. -/
lemma recover_fold_no_running (kw : StatusKwargs) (now : ℚ) :
    ∀ (os : List BackgroundTask) (s : Store),
      (∀ r ∈ s, r.status = .running → ∃ o ∈ os, o.task_id = r.task_id) →
      ∀ r ∈ os.foldl (fun acc t => update_status acc t.task_id .failed kw now) s,
        r.status ≠ .running := by
  intro os
  induction os with
  | nil =>
    intro s h r hr hrun
    obtain ⟨o, ho, _⟩ := h r hr hrun
    exact absurd ho (List.not_mem_nil o)
  | cons o rest ih =>
    intro s h
    simp only [List.foldl_cons]
    refine ih (update_status s o.task_id .failed kw now) ?_
    intro r hr hrun
    simp only [update_status, List.mem_map] at hr
    obtain ⟨r0, hr0, hr0eq⟩ := hr
    by_cases hid : r0.task_id = o.task_id
    · rw [if_pos (by simp [hid])] at hr0eq
      rw [← hr0eq] at hrun
      simp [applyStatusUpdate] at hrun
    · rw [if_neg (by simp [hid])] at hr0eq
      subst hr0eq
      obtain ⟨o', ho', ho'eq⟩ := h r0 hr0 hrun
      rcases List.mem_cons.mp ho' with h1 | h1
      · subst h1; exact absurd ho'eq.symm hid
      · exact ⟨o', h1, ho'eq⟩

/-- An attempt that ends in a transient failure publishes no events, leaves
the store as the stream callbacks left it, and hands the accumulator on. -/
lemma runAttempt_transient_spec (S : Settings) (task : BackgroundTask)
    (commits : List Commit) (t0 now : ℚ) (store : Store) (acc0 : ℚ)
    (call : AttemptCall) (m : String)
    (h : (runAttempt S task commits t0 now store acc0 call).2.2.2 = .transient m) :
    (runAttempt S task commits t0 now store acc0 call).1 =
        (processStream S.task_max_cost task.task_id now ⟨store, acc0, 0⟩ call.events).1.store ∧
      (runAttempt S task commits t0 now store acc0 call).2.1 = [] ∧
      (runAttempt S task commits t0 now store acc0 call).2.2.1 =
        (processStream S.task_max_cost task.task_id now ⟨store, acc0, 0⟩ call.events).1.acc := by
  unfold runAttempt at h ⊢
  by_cases hb : (processStream S.task_max_cost task.task_id now ⟨store, acc0, 0⟩ call.events).2
  · simp [hb] at h
  · cases hf : call.finish with
    | cancels => rw [hf] at h; simp [hb] at h
    | raises msg => simp [hb]
    | returns resp =>
      rw [hf] at h
      by_cases he : resp.is_error
      · simp [hb, he]
      · simp [hb, he] at h

/-- An attempt that ends in success returned a non-error response, marks
the record `completed` (summary, session id, commits) on top of the
stream-updated store, and publishes exactly one `Completed` event whose
cost is the accumulator plus the response cost. -/
lemma runAttempt_success_spec (S : Settings) (task : BackgroundTask)
    (commits : List Commit) (t0 now : ℚ) (store : Store) (acc0 : ℚ)
    (call : AttemptCall)
    (h : (runAttempt S task commits t0 now store acc0 call).2.2.2 = .success) :
    ∃ resp, call.finish = .returns resp ∧ resp.is_error = false ∧
      (runAttempt S task commits t0 now store acc0 call).1 =
        update_status
          (processStream S.task_max_cost task.task_id now ⟨store, acc0, 0⟩ call.events).1.store
          task.task_id .completed
          { result_summary := some (summaryOf resp.content)
            session_id := some resp.session_id
            commits := some commits } now ∧
      (runAttempt S task commits t0 now store acc0 call).2.1 =
        [.completed task.task_id (Rat.floor (now - t0))
          ((processStream S.task_max_cost task.task_id now ⟨store, acc0, 0⟩ call.events).1.acc + resp.cost)
          commits (summaryOf resp.content) (task.chat_id.getD 0) task.message_thread_id] := by
  unfold runAttempt at h ⊢
  by_cases hb : (processStream S.task_max_cost task.task_id now ⟨store, acc0, 0⟩ call.events).2
  · simp [hb] at h
  · cases hf : call.finish with
    | cancels => rw [hf] at h; simp [hb] at h
    | raises msg => rw [hf] at h; simp [hb] at h
    | returns resp =>
      rw [hf] at h
      by_cases he : resp.is_error
      · simp [hb, he] at h
      · refine ⟨resp, rfl, by simpa using he, ?_⟩
        simp [hb, he]

lemma applyStatusUpdate_stopped (r : BackgroundTask) (now : ℚ) :
    applyStatusUpdate r .stopped {} now =
      { r with status := .stopped, last_activity_at := now } := rfl

lemma applyStatusUpdate_failed_msg (r : BackgroundTask) (m : String) (now : ℚ) :
    applyStatusUpdate r .failed { error_message := some m } now =
      { r with status := .failed, last_activity_at := now,
               finished_at := some now, error_message := some m } := rfl

lemma applyStatusUpdate_status (t : BackgroundTask) (st : Status)
    (kw : StatusKwargs) (now : ℚ) :
    (applyStatusUpdate t st kw now).status = st := rfl

lemma applyStatusUpdate_finished_completed (t : BackgroundTask)
    (kw : StatusKwargs) (now : ℚ) :
    (applyStatusUpdate t .completed kw now).finished_at = some now := rfl

lemma applyStatusUpdate_finished_failed (t : BackgroundTask)
    (kw : StatusKwargs) (now : ℚ) :
    (applyStatusUpdate t .failed kw now).finished_at = some now := rfl

lemma applyStatusUpdate_finished_stopped (t : BackgroundTask)
    (kw : StatusKwargs) (now : ℚ) :
    (applyStatusUpdate t .stopped kw now).finished_at = t.finished_at := rfl

lemma applyStatusUpdate_finished_running (t : BackgroundTask)
    (kw : StatusKwargs) (now : ℚ) :
    (applyStatusUpdate t .running kw now).finished_at = t.finished_at := rfl

/-- `List.find?` returns the element at the first index satisfying the
predicate. -/
lemma find?_first {α : Type} (p : α → Bool) :
    ∀ (l : List α) (k : Nat) (hk : k < l.length),
      p (l.get ⟨k, hk⟩) = true →
      (∀ j (hj : j < k), p (l.get ⟨j, Nat.lt_trans hj hk⟩) = false) →
      l.find? p = some (l.get ⟨k, hk⟩) := by
  intro l
  induction l with
  | nil =>
    intro k hk
    exact absurd hk (by simp)
  | cons a rest ih =>
    intro k hk hp hbefore
    cases k with
    | zero =>
      rw [List.find?_cons_of_pos _ (by simpa using hp)]
      rfl
    | succ k' =>
      have h0 : p a = false := by
        simpa using hbefore 0 (Nat.succ_pos k')
      rw [List.find?_cons_of_neg _ (by simp [h0])]
      exact ih k' (by simpa using Nat.lt_of_succ_lt_succ hk)
        (by simpa using hp)
        (fun j hj => by simpa using hbefore (j + 1) (Nat.succ_lt_succ hj))

/-! ## Claims -/

/-- **C3.** `start_task` fails with `ProjectBusy` (carrying the existing
task id) when a running record exists for the working directory, and with
`CapacityExceeded` when the running count is at least
`max_concurrent_tasks`; on either admission failure the store is unchanged
and no event is published.  With no project conflict and a running count of
`max_concurrent_tasks − 1` it succeeds: the new `running` record is
persisted and a `Started` event is published. -/
theorem C3_start_task_admission (S : Settings) (store : Store)
    (prompt path : String) (uid cid : Int) (mtid : Option Int)
    (sid : Option String) (fid : String) (now : ℚ) :
    (∀ existing, get_running_for_project store path = some existing →
      start_task S store prompt path uid cid mtid sid fid now =
        (store, [], .error (.projectBusy existing.task_id))) ∧
    (get_running_for_project store path = none →
      count_running store ≥ S.max_concurrent_tasks →
      start_task S store prompt path uid cid mtid sid fid now =
        (store, [], .error (.capacityExceeded S.max_concurrent_tasks))) ∧
    (get_running_for_project store path = none →
      count_running store + 1 = S.max_concurrent_tasks →
      ∃ t, start_task S store prompt path uid cid mtid sid fid now =
        (store ++ [t], [.started fid path prompt uid cid mtid], .ok fid) ∧
        t.task_id = fid ∧ t.status = .running ∧ t.finished_at = none ∧
        t.total_cost = 0 ∧ t.total_turns = 0 ∧ t.project_path = path) := by
  refine ⟨?_, ?_, ?_⟩
  · intro existing hex
    simp [start_task, hex]
  · intro hnone hge
    simp [start_task, hnone, hge]
  · intro hnone hcnt
    have hlt : ¬ count_running store ≥ S.max_concurrent_tasks := by omega
    simp only [start_task, hnone, if_neg hlt]
    exact ⟨_, rfl, rfl, rfl, rfl, rfl, rfl, rfl⟩

/-- Witness for C3: with one running task in `/p/app` and a cap of 2, a
start in a free directory succeeds. -/
theorem C3_witness :
    get_running_for_project [exTask] "/p/b" = none ∧
    count_running [exTask] + 1 = 2 ∧
    ∃ t, start_task ⟨2, 1, none⟩ [exTask] "other" "/p/b" 7 8 none none "deadbeef" 9 =
      ([exTask] ++ [t], [.started "deadbeef" "/p/b" "other" 7 8 none], .ok "deadbeef") ∧
      t.task_id = "deadbeef" ∧ t.status = .running ∧ t.finished_at = none ∧
      t.total_cost = 0 ∧ t.total_turns = 0 ∧ t.project_path = "/p/b" :=
  ⟨by decide, by decide,
   (C3_start_task_admission ⟨2, 1, none⟩ [exTask] "other" "/p/b" 7 8 none none
      "deadbeef" 9).2.2 (by decide) (by decide)⟩

/-- **C4 counterexample.** `stop_task` on a task that is already terminal
does not leave the terminal status unchanged: on a `completed` record it
overwrites the status with `stopped` (the code calls
`update_status(task_id, "stopped")` unconditionally). -/
theorem C4_counterexample :
    (getTask [exTaskCompleted] "t1").map BackgroundTask.status =
      some .completed ∧
    (getTask (stop_task [exTaskCompleted] "t1" 9) "t1").map
      BackgroundTask.status = some .stopped ∧
    Status.stopped ≠ Status.completed := by
  refine ⟨rfl, ?_, by decide⟩
  rfl

/-- **C4 (amended).** `stop_task` raises no error on a task in any status
and always overwrites the record's status with `stopped` (refreshing
last-activity, leaving the finish timestamp untouched); in particular a
second `stop_task` leaves the status at `stopped` (idempotent), but on a
`completed` or `failed` record the first call replaces the terminal status
with `stopped`. -/
theorem C4_stop_task_overwrites_status (store : Store) (id : String)
    (n1 n2 : ℚ) (r : BackgroundTask) (h : getTask store id = some r) :
    getTask (stop_task store id n1) id =
      some { r with status := .stopped, last_activity_at := n1 } ∧
    getTask (stop_task (stop_task store id n1) id n2) id =
      some { r with status := .stopped, last_activity_at := n2 } := by
  have h1 : getTask (stop_task store id n1) id =
      some { r with status := .stopped, last_activity_at := n1 } := by
    rw [stop_task, getTask_update_status, h]
    rfl
  refine ⟨h1, ?_⟩
  rw [stop_task, getTask_update_status, h1]
  rfl

/-- Witness for C4: stopping a completed task twice. -/
theorem C4_witness :
    getTask [exTaskCompleted] "t1" = some exTaskCompleted ∧
    getTask (stop_task [exTaskCompleted] "t1" 5) "t1" =
      some { exTaskCompleted with status := .stopped, last_activity_at := 5 } ∧
    getTask (stop_task (stop_task [exTaskCompleted] "t1" 5) "t1" 6) "t1" =
      some { exTaskCompleted with status := .stopped, last_activity_at := 6 } :=
  ⟨by decide,
   (C4_stop_task_overwrites_status [exTaskCompleted] "t1" 5 6 exTaskCompleted
      (by decide)).1,
   (C4_stop_task_overwrites_status [exTaskCompleted] "t1" 5 6 exTaskCompleted
      (by decide)).2⟩

/-- **C5 counterexample.** A record made terminal by `stop_task` (status
`stopped`) has no finish timestamp: `update_status` sets `finished_at` only
for `completed` and `failed`. -/
theorem C5_counterexample :
    (getTask (stop_task [exTask] "t1" 9) "t1").map
      (fun t => (t.status, t.finished_at)) = some (.stopped, none) := by
  rfl

/-- **C5 (amended).** `update_status` to `completed` or `failed` sets the
finish timestamp to the update time; `update_status` to `stopped` or
`running` leaves it unchanged — so records stopped via `stop_task` carry no
finish timestamp, while a record created by a successful `start_task` is
`running` with no finish timestamp. -/
theorem C5_finished_at_policy (store : Store) (id : String)
    (kw : StatusKwargs) (now : ℚ) (r : BackgroundTask)
    (h : getTask store id = some r) :
    ((getTask (update_status store id .completed kw now) id).map
        BackgroundTask.finished_at = some (some now)) ∧
    ((getTask (update_status store id .failed kw now) id).map
        BackgroundTask.finished_at = some (some now)) ∧
    ((getTask (update_status store id .stopped kw now) id).map
        BackgroundTask.finished_at = some r.finished_at) ∧
    ((getTask (stop_task store id now) id).map
        BackgroundTask.finished_at = some r.finished_at) ∧
    (∀ (S : Settings) prompt path (uid cid : Int) mtid sid fid (n2 : ℚ)
        (st' : Store) evs tid,
      start_task S store prompt path uid cid mtid sid fid n2 =
        (st', evs, .ok tid) →
      ∃ t, st' = store ++ [t] ∧ t.status = .running ∧ t.finished_at = none) := by
  refine ⟨?_, ?_, ?_, ?_, ?_⟩
  · rw [getTask_update_status, h]
    simp [applyStatusUpdate_finished_completed]
  · rw [getTask_update_status, h]
    simp [applyStatusUpdate_finished_failed]
  · rw [getTask_update_status, h]
    simp [applyStatusUpdate_finished_stopped]
  · rw [stop_task, getTask_update_status, h]
    simp [applyStatusUpdate_finished_stopped]
  · intro S prompt path uid cid mtid sid fid n2 st' evs tid heq
    unfold start_task at heq
    cases hfind : get_running_for_project store path with
    | some existing => rw [hfind] at heq; simp at heq
    | none =>
      rw [hfind] at heq
      by_cases hge : count_running store ≥ S.max_concurrent_tasks
      · rw [if_pos hge] at heq; simp at heq
      · rw [if_neg hge] at heq
        have hst := congrArg Prod.fst heq
        exact ⟨_, hst.symm, rfl, rfl⟩

/-- Witness for C5: finish-timestamp behaviour on a concrete store. -/
theorem C5_witness :
    getTask [exTask] "t1" = some exTask ∧
    (getTask (update_status [exTask] "t1" .completed {} 7) "t1").map
      BackgroundTask.finished_at = some (some 7) ∧
    (getTask (stop_task [exTask] "t1" 7) "t1").map
      BackgroundTask.finished_at = some exTask.finished_at :=
  ⟨by decide,
   (C5_finished_at_policy [exTask] "t1" {} 7 exTask (by decide)).1,
   (C5_finished_at_policy [exTask] "t1" {} 7 exTask (by decide)).2.2.2.1⟩

/-- **C6 counterexample.** `update_progress` with no output argument does
not leave `last_output` unchanged: the SQL `SET last_output = ?` writes
`NULL` over the previous value. -/
theorem C6_counterexample :
    (getTask [{ exTask with last_output := some "hello" }] "t1").map
      BackgroundTask.last_output = some (some "hello") ∧
    (getTask (update_progress [{ exTask with last_output := some "hello" }]
        "t1" 1 none 5) "t1").map BackgroundTask.last_output = some none := by
  exact ⟨rfl, rfl⟩

/-- **C6 (amended).** `update_progress(id, c, out)` with `c ≥ 0` on an
existing record adds exactly `c` to the accumulated cost (two successive
calls add the sum of their deltas to the pre-existing cost), increments the
turn counter by one, refreshes last-activity, and unconditionally
overwrites `last_output` with `out` (writing `NULL` when `out` is not
provided). -/
theorem C6_update_progress_accumulates (store : Store) (id : String)
    (c₁ c₂ : ℚ) (o₁ o₂ : Option String) (n₁ n₂ : ℚ) (r : BackgroundTask)
    (hc₁ : 0 ≤ c₁) (hc₂ : 0 ≤ c₂) (h : getTask store id = some r) :
    getTask (update_progress store id c₁ o₁ n₁) id =
      some { r with total_cost := r.total_cost + c₁,
                    total_turns := r.total_turns + 1,
                    last_output := o₁, last_activity_at := n₁ } ∧
    getTask (update_progress (update_progress store id c₁ o₁ n₁) id c₂ o₂ n₂) id =
      some { r with total_cost := r.total_cost + c₁ + c₂,
                    total_turns := r.total_turns + 2,
                    last_output := o₂, last_activity_at := n₂ } := by
  have h1 : getTask (update_progress store id c₁ o₁ n₁) id =
      some { r with total_cost := r.total_cost + c₁,
                    total_turns := r.total_turns + 1,
                    last_output := o₁, last_activity_at := n₁ } := by
    rw [getTask_update_progress, h]
    rfl
  refine ⟨h1, ?_⟩
  rw [getTask_update_progress, h1]
  rfl

/-- Witness for C6: two successive progress updates on a concrete store. -/
theorem C6_witness :
    (0 : ℚ) ≤ 0 ∧ (0 : ℚ) ≤ 3/2 ∧ getTask [exTask] "t1" = some exTask ∧
    getTask (update_progress (update_progress [exTask] "t1" 0 (some "a") 1)
        "t1" (3/2) none 2) "t1" =
      some { exTask with total_cost := exTask.total_cost + 0 + 3/2,
                         total_turns := exTask.total_turns + 2,
                         last_output := none, last_activity_at := 2 } :=
  ⟨le_refl 0, by norm_num, by decide,
   (C6_update_progress_accumulates [exTask] "t1" 0 (3/2) (some "a") none 1 2
      exTask (le_refl 0) (by norm_num) (by decide)).2⟩

/-- **C9 counterexample.** `recover` marks orphans with the fixed Russian
message "Бот был перезапущен, задача прервана", not with the literal
string "process restarted; task aborted". -/
theorem C9_counterexample :
    (recover [exTask] 9).1.map BackgroundTask.error_message =
      [some recoverMessage] ∧
    recoverMessage ≠ "process restarted; task aborted" := by
  exact ⟨rfl, by decide⟩

/-- **C9 (amended).** `recover` publishes no events and sets every record
with status `running` to `failed` with `error_message` equal to the fixed
restart message ("Бот был перезапущен, задача прервана"), also setting the
finish timestamp and refreshing last-activity; after `recover` returns no
record has status `running`. -/
theorem C9_recover_marks_orphans (store : Store) (now : ℚ) :
    (recover store now).2 = [] ∧
    (∀ r ∈ (recover store now).1, r.status ≠ .running) ∧
    (recover store now).1.length = store.length ∧
    (∀ i (hi : i < store.length) (hi2 : i < (recover store now).1.length),
      (store.get ⟨i, hi⟩).status = .running →
      (recover store now).1.get ⟨i, hi2⟩ =
        { store.get ⟨i, hi⟩ with
          status := .failed
          last_activity_at := now
          finished_at := some now
          error_message := some recoverMessage }) := by
  refine ⟨rfl, ?_, ?_, ?_⟩
  · intro r hr
    refine recover_fold_no_running { error_message := some recoverMessage } now
      (get_all_running store) store ?_ r hr
    intro r0 hr0 hrun0
    exact ⟨r0, List.mem_filter.mpr ⟨hr0, by simp [hrun0]⟩, rfl⟩
  · exact length_recover_fold { error_message := some recoverMessage } now
      (get_all_running store) store
  · intro i hi hi2 hrun
    have hkey := getElem_recover_fold { error_message := some recoverMessage }
      now (get_all_running store) store i hi hi2
    have hmem : store[i].task_id ∈
        (get_all_running store).map BackgroundTask.task_id := by
      refine List.mem_map.mpr ⟨store[i], ?_, rfl⟩
      refine List.mem_filter.mpr ⟨List.getElem_mem hi, ?_⟩
      have : store[i] = store.get ⟨i, hi⟩ := by
        simp [List.get_eq_getElem]
      rw [this, hrun]
      rfl
    rw [if_pos hmem] at hkey
    have hgoal : (recover store now).1.get ⟨i, hi2⟩ =
        applyStatusUpdate store[i] .failed
          { error_message := some recoverMessage } now := by
      simpa [List.get_eq_getElem] using hkey
    rw [hgoal, applyStatusUpdate_failed_msg]
    simp [List.get_eq_getElem]

/-- Witness for C9: recovering a store with one running orphan. -/
theorem C9_witness :
    (recover [exTask] 9).2 = [] ∧
    (([exTask] : Store).get ⟨0, Nat.one_pos⟩).status = .running ∧
    (recover [exTask] 9).1.get ⟨0, by decide⟩ =
      { ([exTask] : Store).get ⟨0, Nat.one_pos⟩ with
        status := .failed
        last_activity_at := 9
        finished_at := some 9
        error_message := some recoverMessage } :=
  ⟨(C9_recover_marks_orphans [exTask] 9).1, rfl,
   (C9_recover_marks_orphans [exTask] 9).2.2.2 0 Nat.one_pos (by decide) rfl⟩

/-- **C10 counterexample.** A legacy naive (offset-less) timestamp string
read back by `from_row` stays naive: `datetime.fromisoformat` performs no
UTC normalisation, so the parsed value is not timezone-aware. -/
theorem C10_counterexample :
    from_row_timestamp (.str 0 false) = some ⟨0, false⟩ ∧
    (from_row_timestamp (.str 0 false)).map PyDatetime.tzaware ≠ some true := by
  exact ⟨rfl, by decide⟩

/-- **C10 (amended).** `from_row` parses string timestamps with
`datetime.fromisoformat`, which preserves the string's own timezone
information: offset-bearing strings come back aware and naive strings come
back naive (no normalisation to UTC); already-parsed datetimes pass through
unchanged and `NULL` stays absent.  Consequently elapsed/idle arithmetic
between `datetime.now(timezone.utc)` (aware) and a legacy naive timestamp
is a `TypeError`, not a prevented case. -/
theorem C10_from_row_preserves_naivety :
    (∀ (v : Int) (off : Bool),
      from_row_timestamp (.str v off) = some ⟨v, off⟩) ∧
    (∀ d, from_row_timestamp (.dt d) = some d) ∧
    from_row_timestamp .null = none ∧
    (∀ a b : PyDatetime, a.tzaware ≠ b.tzaware → pyDatetimeSub a b = none) := by
  refine ⟨fun v off => rfl, fun d => rfl, rfl, ?_⟩
  intro a b hne
  simp [pyDatetimeSub, hne]

/-- Witness for C10: subtracting a naive parsed timestamp from an aware
"now" is undefined. -/
theorem C10_witness :
    (⟨9, true⟩ : PyDatetime).tzaware ≠ (⟨0, false⟩ : PyDatetime).tzaware ∧
    pyDatetimeSub ⟨9, true⟩ ⟨0, false⟩ = none :=
  ⟨by decide,
   C10_from_row_preserves_naivety.2.2.2 ⟨9, true⟩ ⟨0, false⟩ (by decide)⟩

/-- **C8.** On a supervisor tick: a missing or non-`running` record
terminates the loop with no publication; otherwise, if the idle time since
last-activity exceeds the timeout, exactly one `Timeout` event (with
`duration = elapsed` and the idle seconds) is published and the loop
terminates; otherwise one `Progress` event is published whose stage label
is that of the first pattern of the fixed ordered table matching
`last_output` — the default label when `last_output` is null or matches no
pattern — and the loop continues. -/
theorem C8_heartbeat_tick (store : Store) (tid : String) (hbTimeout now : ℚ)
    (rest : List (Store × ℚ)) :
    (getTask store tid = none →
      heartbeatLoop tid hbTimeout ((store, now) :: rest) = []) ∧
    (∀ r, getTask store tid = some r → r.status ≠ .running →
      heartbeatLoop tid hbTimeout ((store, now) :: rest) = []) ∧
    (∀ r, getTask store tid = some r → r.status = .running →
      now - r.last_activity_at > hbTimeout →
      heartbeatLoop tid hbTimeout ((store, now) :: rest) =
        [.timeout tid (Rat.floor (now - r.created_at)) r.total_cost
          (Rat.floor (now - r.last_activity_at)) (r.chat_id.getD 0)
          r.message_thread_id]) ∧
    (∀ r, getTask store tid = some r → r.status = .running →
      ¬ now - r.last_activity_at > hbTimeout →
      heartbeatLoop tid hbTimeout ((store, now) :: rest) =
        .progress tid (Rat.floor (now - r.created_at)) r.total_cost
          (parse_stage r.last_output) (r.chat_id.getD 0) r.message_thread_id
          :: heartbeatLoop tid hbTimeout rest) ∧
    parse_stage none = defaultStage ∧
    (∀ s, (∀ p ∈ STAGE_PATTERNS, patternMatches p.1 s = false) →
      parse_stage (some s) = defaultStage) ∧
    (∀ s k (hk : k < STAGE_PATTERNS.length), s ≠ "" →
      patternMatches (STAGE_PATTERNS.get ⟨k, hk⟩).1 s = true →
      (∀ j (hj : j < k),
        patternMatches (STAGE_PATTERNS.get ⟨j, Nat.lt_trans hj hk⟩).1 s = false) →
      parse_stage (some s) = (STAGE_PATTERNS.get ⟨k, hk⟩).2) := by
  refine ⟨?_, ?_, ?_, ?_, rfl, ?_, ?_⟩
  · intro hnone
    simp [heartbeatLoop, heartbeatTick, hnone]
  · intro r hr hst
    simp [heartbeatLoop, heartbeatTick, hr, hst]
  · intro r hr hst hidle
    simp [heartbeatLoop, heartbeatTick, hr, hst, hidle]
  · intro r hr hst hidle
    simp [heartbeatLoop, heartbeatTick, hr, hst, hidle]
  · intro s hnomatch
    by_cases hs : s = ""
    · simp [parse_stage, hs]
    · have hfind : STAGE_PATTERNS.find? (fun p => patternMatches p.1 s) = none :=
        List.find?_eq_none.mpr (fun p hp => by simp [hnomatch p hp])
      simp [parse_stage, hs, hfind]
  · intro s k hk hs hmatch hbefore
    have hfind := find?_first (fun p => patternMatches p.1 s) STAGE_PATTERNS
      k hk hmatch hbefore
    simp [parse_stage, hs, hfind]

/-- Witness for C8: a long-idle running task triggers exactly one
`Timeout`; the stage classifier picks the first matching pattern. -/
theorem C8_witness :
    getTask [exTask] "t1" = some exTask ∧
    exTask.status = .running ∧
    ((500 : ℚ) - exTask.last_activity_at > 300) ∧
    heartbeatLoop "t1" 300 [([exTask], 500)] =
      [.timeout "t1" (Rat.floor ((500 : ℚ) - exTask.created_at))
        exTask.total_cost (Rat.floor ((500 : ℚ) - exTask.last_activity_at))
        (exTask.chat_id.getD 0) exTask.message_thread_id] :=
  ⟨by decide, rfl, by norm_num [exTask],
   (C8_heartbeat_tick [exTask] "t1" 300 500 []).2.2.1 exTask (by decide) rfl
     (by norm_num [exTask])⟩

/-- **C1.** When the running total of stream-event costs first exceeds
`task_max_cost` at event `k` of the first provider call, the stream
callback has persisted each processed delta via `update_progress` (exactly
the events up to and including `k`), raises `CostLimitExceeded` there
(aborting the provider call — the result is independent of how the call
would have finished), the task is finalised `failed` with the exceeded-
limit message, a `Failed` event carrying the accumulated cost is
published, and no retry is attempted (one provider invocation, no retry
sleep). -/
theorem C1_cost_limit_aborts (S : Settings) (task : BackgroundTask)
    (behavior : Behavior) (commits : List Commit) (t0 now : ℚ)
    (store : Store) (k : Nat)
    (hk : k < (behavior 0).events.length)
    (hle : ∀ j, j < k →
      sumDeltas ((behavior 0).events.take (j + 1)) ≤ S.task_max_cost)
    (hgt : sumDeltas ((behavior 0).events.take (k + 1)) > S.task_max_cost) :
    runTask S task behavior commits t0 now store =
      ⟨update_status
         (applyStreamPrefix task.task_id now store
           ((behavior 0).events.take (k + 1)))
         task.task_id .failed
         { error_message := some (costLimitMsg task.task_id
             (sumDeltas ((behavior 0).events.take (k + 1))) S.task_max_cost) }
         now,
       [.failed task.task_id (Rat.floor (now - t0))
          (sumDeltas ((behavior 0).events.take (k + 1)))
          (costLimitMsg task.task_id
            (sumDeltas ((behavior 0).events.take (k + 1))) S.task_max_cost)
          (pyOrStr task.last_output "") (task.chat_id.getD 0)
          task.message_thread_id],
       1, [], false⟩ ∧
    sumDeltas ((behavior 0).events.take (k + 1)) > S.task_max_cost := by
  have habort := processStream_abort S.task_max_cost task.task_id now
    (behavior 0).events ⟨store, 0, 0⟩ k hk
    (fun j hj => by simpa using hle j hj)
    (by simpa using hgt)
  refine ⟨?_, hgt⟩
  unfold runTask runAttempt
  rw [habort]
  simp [zero_add]

/-- Behaviour for the C1 witness: two stream deltas of 0.6 against a limit
of 1 (the second callback invocation breaches the limit). -/
def behC1 : Behavior := fun _ =>
  { events := [⟨some (6/10), some "Read a", none⟩, ⟨some (6/10), none, some "Edit"⟩]
    finish := .returns ⟨"done", some "sess", 1/10, 1000, 2, false, none⟩ }

/-- Witness for C1: the run aborts at the second stream event with
accumulated cost 1.2 > 1 and one provider call. -/
theorem C1_witness :
    1 < (behC1 0).events.length ∧
    sumDeltas ((behC1 0).events.take 2) > exSettings.task_max_cost ∧
    runTask exSettings exTask behC1 [] 0 10 [exTask] =
      ⟨update_status
         (applyStreamPrefix exTask.task_id 10 [exTask]
           ((behC1 0).events.take 2))
         exTask.task_id .failed
         { error_message := some (costLimitMsg exTask.task_id
             (sumDeltas ((behC1 0).events.take 2)) exSettings.task_max_cost) }
         10,
       [.failed exTask.task_id (Rat.floor ((10 : ℚ) - 0))
          (sumDeltas ((behC1 0).events.take 2))
          (costLimitMsg exTask.task_id
            (sumDeltas ((behC1 0).events.take 2)) exSettings.task_max_cost)
          (pyOrStr exTask.last_output "") (exTask.chat_id.getD 0)
          exTask.message_thread_id],
       1, [], false⟩ :=
  ⟨by simp [behC1], by norm_num [behC1, sumDeltas, streamCost, exSettings],
   (C1_cost_limit_aborts exSettings exTask behC1 [] 0 10 [exTask] 1
      (by simp [behC1])
      (fun j hj => by
        have hj0 : j = 0 := by omega
        subst hj0
        norm_num [behC1, sumDeltas, streamCost, exSettings])
      (by norm_num [behC1, sumDeltas, streamCost, exSettings])).1⟩

/-- **C2.** When the first provider call ends in a transient failure (a
raised non-cancellation exception or a response with `is_error=true` —
both yield the `transient` outcome) and the retry succeeds, the unit
retries exactly once after the fixed `RETRY_DELAY_SECONDS` delay: the
provider is invoked exactly twice, a `Completed` event is published, and
the record ends in status `completed`. -/
theorem C2_transient_retry_then_success (S : Settings)
    (task : BackgroundTask) (behavior : Behavior) (commits : List Commit)
    (t0 now : ℚ) (store : Store) (m : String)
    (h1 : (runAttempt S task commits t0 now store 0 (behavior 0)).2.2.2 =
      .transient m)
    (h2 : (runAttempt S task commits t0 now
        (runAttempt S task commits t0 now store 0 (behavior 0)).1
        (runAttempt S task commits t0 now store 0 (behavior 0)).2.2.1
        (behavior 1)).2.2.2 = .success) :
    (runTask S task behavior commits t0 now store).providerCalls = 2 ∧
    (runTask S task behavior commits t0 now store).sleeps =
      [RETRY_DELAY_SECONDS] ∧
    (runTask S task behavior commits t0 now store).cancelled = false ∧
    (∃ resp, (behavior 1).finish = .returns resp ∧ resp.is_error = false ∧
      (runTask S task behavior commits t0 now store).events =
        [.completed task.task_id (Rat.floor (now - t0))
          ((processStream S.task_max_cost task.task_id now
              ⟨(runAttempt S task commits t0 now store 0 (behavior 0)).1,
               (runAttempt S task commits t0 now store 0 (behavior 0)).2.2.1,
               0⟩ (behavior 1).events).1.acc + resp.cost)
          commits (summaryOf resp.content) (task.chat_id.getD 0)
          task.message_thread_id]) ∧
    (∀ r, getTask store task.task_id = some r →
      ∃ r2, getTask (runTask S task behavior commits t0 now store).store
          task.task_id = some r2 ∧
        r2.status = .completed ∧ r2.finished_at = some now) := by
  obtain ⟨hs1, he1, ha1⟩ :=
    runAttempt_transient_spec S task commits t0 now store 0 (behavior 0) m h1
  obtain ⟨resp, hf, herr, hstore2, hev2⟩ :=
    runAttempt_success_spec S task commits t0 now
      (runAttempt S task commits t0 now store 0 (behavior 0)).1
      (runAttempt S task commits t0 now store 0 (behavior 0)).2.2.1
      (behavior 1) h2
  have hrun : runTask S task behavior commits t0 now store =
      ⟨(runAttempt S task commits t0 now
          (runAttempt S task commits t0 now store 0 (behavior 0)).1
          (runAttempt S task commits t0 now store 0 (behavior 0)).2.2.1
          (behavior 1)).1,
        (runAttempt S task commits t0 now store 0 (behavior 0)).2.1 ++
          (runAttempt S task commits t0 now
            (runAttempt S task commits t0 now store 0 (behavior 0)).1
            (runAttempt S task commits t0 now store 0 (behavior 0)).2.2.1
            (behavior 1)).2.1,
        2, [RETRY_DELAY_SECONDS], false⟩ := by
    simp only [runTask, h1, h2]
  refine ⟨by rw [hrun], by rw [hrun], by rw [hrun],
    ⟨resp, hf, herr, ?_⟩, ?_⟩
  · rw [hrun]
    show (runAttempt S task commits t0 now store 0 (behavior 0)).2.1 ++
        (runAttempt S task commits t0 now
          (runAttempt S task commits t0 now store 0 (behavior 0)).1
          (runAttempt S task commits t0 now store 0 (behavior 0)).2.2.1
          (behavior 1)).2.1 = _
    rw [he1, hev2]
    rfl
  · intro r hr
    obtain ⟨pre1, hpre1⟩ := processStream_store S.task_max_cost task.task_id
      now (behavior 1).events
      ⟨(runAttempt S task commits t0 now store 0 (behavior 0)).1,
       (runAttempt S task commits t0 now store 0 (behavior 0)).2.2.1, 0⟩
    obtain ⟨pre0, hpre0⟩ := processStream_store S.task_max_cost task.task_id
      now (behavior 0).events ⟨store, 0, 0⟩
    have hstore : (runTask S task behavior commits t0 now store).store =
        update_status
          (applyStreamPrefix task.task_id now
            (applyStreamPrefix task.task_id now store pre0) pre1)
          task.task_id .completed
          { result_summary := some (summaryOf resp.content)
            session_id := some resp.session_id
            commits := some commits } now := by
      rw [hrun]
      show (runAttempt S task commits t0 now
          (runAttempt S task commits t0 now store 0 (behavior 0)).1
          (runAttempt S task commits t0 now store 0 (behavior 0)).2.2.1
          (behavior 1)).1 = _
      rw [hstore2]
      congr 1
      rw [hpre1]
      congr 1
      rw [hs1, hpre0]
    rw [hstore, getTask_update_status, getTask_applyStreamPrefix,
      getTask_applyStreamPrefix, hr]
    exact ⟨_, rfl, rfl, rfl⟩

/-- Behaviour for the C2 witness: `is_error=true` with message "network
glitch" on the first call, success with cost 0.2 on the second. -/
def behC2 : Behavior := fun n =>
  if n = 0 then
    { events := [], finish := .returns ⟨"", none, 0, 0, 0, true, some "network glitch"⟩ }
  else
    { events := [], finish := .returns ⟨"ok", some "s", 2/10, 0, 1, false, none⟩ }

/-- Witness for C2: the error-response provider call yields the transient
outcome, and the run makes exactly two provider calls with one retry
delay. -/
theorem C2_witness :
    (runAttempt exSettings exTask [] 0 10 [exTask] 0 (behC2 0)).2.2.2 =
      .transient "network glitch" ∧
    (runTask exSettings exTask behC2 [] 0 10 [exTask]).providerCalls = 2 ∧
    (runTask exSettings exTask behC2 [] 0 10 [exTask]).sleeps =
      [RETRY_DELAY_SECONDS] :=
  ⟨by rfl,
   (C2_transient_retry_then_success exSettings exTask behC2 [] 0 10 [exTask]
      "network glitch" (by rfl) (by rfl)).1,
   (C2_transient_retry_then_success exSettings exTask behC2 [] 0 10 [exTask]
      "network glitch" (by rfl) (by rfl)).2.1⟩

/-- Behaviour for the C7 counterexample: the first call streams an output
snippet ("pytest run") and then raises; the retry raises too. -/
def behC7 : Behavior := fun n =>
  if n = 0 then
    { events := [⟨some (1/10), some "pytest run", none⟩], finish := .raises "boom" }
  else
    { events := [], finish := .raises "boom2" }

/-- **C7 counterexample.** After the retry budget is exhausted, the
`Failed` event does not carry the most recently persisted output snippet:
the stream had persisted "pytest run" into the record, but the event
carries `""` — the `last_output` of the task object captured at launch
(`task.last_output or ""`), which for a freshly started task is null. -/
theorem C7_counterexample :
    (runTask exSettings exTask behC7 [] 0 10 [exTask]).events =
      [.failed "t1" 10 (1/10) "boom2" "" 100 none] ∧
    (getTask (runTask exSettings exTask behC7 [] 0 10 [exTask]).store
        "t1").map BackgroundTask.last_output = some (some "pytest run") ∧
    ("" : String) ≠ "pytest run" := by
  refine ⟨?_, ?_, by decide⟩ <;>
    norm_num [runTask, runAttempt, processStream, behC7, exSettings, exTask,
      streamCost, streamOutput, truthyStr, update_progress,
      applyProgressUpdate, pyOrStr, getTask, Rat.floor, update_status,
      applyStatusUpdate, List.find?_cons] <;>
    exact fun h => absurd h (by decide)

/-- **C7 (amended).** When the provider call fails transiently on both
attempts, the record is updated to `failed` with `error_message` equal to
the last exception's message and a `Failed` event is published carrying
the duration, the accumulated cost, that message, and the `last_output` of
the task object captured at launch (`""` when it was null) — not the
record's most recently persisted output snippet. -/
theorem C7_failed_event_after_retry (S : Settings) (task : BackgroundTask)
    (behavior : Behavior) (commits : List Commit) (t0 now : ℚ)
    (store : Store) (m1 m2 : String)
    (h1 : (runAttempt S task commits t0 now store 0 (behavior 0)).2.2.2 =
      .transient m1)
    (h2 : (runAttempt S task commits t0 now
        (runAttempt S task commits t0 now store 0 (behavior 0)).1
        (runAttempt S task commits t0 now store 0 (behavior 0)).2.2.1
        (behavior 1)).2.2.2 = .transient m2) :
    (runTask S task behavior commits t0 now store).providerCalls = 2 ∧
    (runTask S task behavior commits t0 now store).sleeps =
      [RETRY_DELAY_SECONDS] ∧
    (runTask S task behavior commits t0 now store).events =
      [.failed task.task_id (Rat.floor (now - t0))
        (runAttempt S task commits t0 now
          (runAttempt S task commits t0 now store 0 (behavior 0)).1
          (runAttempt S task commits t0 now store 0 (behavior 0)).2.2.1
          (behavior 1)).2.2.1
        m2 (pyOrStr task.last_output "") (task.chat_id.getD 0)
        task.message_thread_id] ∧
    (∀ r, getTask store task.task_id = some r →
      ∃ r2, getTask (runTask S task behavior commits t0 now store).store
          task.task_id = some r2 ∧
        r2.status = .failed ∧ r2.error_message = some m2 ∧
        r2.finished_at = some now) := by
  obtain ⟨hs1, he1, ha1⟩ :=
    runAttempt_transient_spec S task commits t0 now store 0 (behavior 0) m1 h1
  obtain ⟨hs2, he2, ha2⟩ :=
    runAttempt_transient_spec S task commits t0 now
      (runAttempt S task commits t0 now store 0 (behavior 0)).1
      (runAttempt S task commits t0 now store 0 (behavior 0)).2.2.1
      (behavior 1) m2 h2
  have hrun : runTask S task behavior commits t0 now store =
      ⟨update_status
          (runAttempt S task commits t0 now
            (runAttempt S task commits t0 now store 0 (behavior 0)).1
            (runAttempt S task commits t0 now store 0 (behavior 0)).2.2.1
            (behavior 1)).1
          task.task_id .failed { error_message := some m2 } now,
        ((runAttempt S task commits t0 now store 0 (behavior 0)).2.1 ++
          (runAttempt S task commits t0 now
            (runAttempt S task commits t0 now store 0 (behavior 0)).1
            (runAttempt S task commits t0 now store 0 (behavior 0)).2.2.1
            (behavior 1)).2.1) ++
          [.failed task.task_id (Rat.floor (now - t0))
            (runAttempt S task commits t0 now
              (runAttempt S task commits t0 now store 0 (behavior 0)).1
              (runAttempt S task commits t0 now store 0 (behavior 0)).2.2.1
              (behavior 1)).2.2.1
            m2 (pyOrStr task.last_output "") (task.chat_id.getD 0)
            task.message_thread_id],
        2, [RETRY_DELAY_SECONDS], false⟩ := by
    simp only [runTask, h1, h2]
  refine ⟨by rw [hrun], by rw [hrun], ?_, ?_⟩
  · rw [hrun]
    show ((runAttempt S task commits t0 now store 0 (behavior 0)).2.1 ++ _) ++ _ = _
    rw [he1, he2]
    rfl
  · intro r hr
    obtain ⟨pre1, hpre1⟩ := processStream_store S.task_max_cost task.task_id
      now (behavior 1).events
      ⟨(runAttempt S task commits t0 now store 0 (behavior 0)).1,
       (runAttempt S task commits t0 now store 0 (behavior 0)).2.2.1, 0⟩
    obtain ⟨pre0, hpre0⟩ := processStream_store S.task_max_cost task.task_id
      now (behavior 0).events ⟨store, 0, 0⟩
    have hstore : (runTask S task behavior commits t0 now store).store =
        update_status
          (applyStreamPrefix task.task_id now
            (applyStreamPrefix task.task_id now store pre0) pre1)
          task.task_id .failed { error_message := some m2 } now := by
      rw [hrun]
      show update_status
          (runAttempt S task commits t0 now
            (runAttempt S task commits t0 now store 0 (behavior 0)).1
            (runAttempt S task commits t0 now store 0 (behavior 0)).2.2.1
            (behavior 1)).1
          task.task_id .failed { error_message := some m2 } now = _
      rw [hs2]
      congr 1
      rw [hpre1]
      congr 1
      rw [hs1, hpre0]
    rw [hstore, getTask_update_status, getTask_applyStreamPrefix,
      getTask_applyStreamPrefix, hr]
    exact ⟨_, rfl, rfl, rfl, rfl⟩

/-- Witness for C7: two raising provider calls on a fresh task. -/
theorem C7_witness :
    (runAttempt exSettings exTask [] 0 10 [exTask] 0 (behC7 0)).2.2.2 =
      .transient "boom" ∧
    (runTask exSettings exTask behC7 [] 0 10 [exTask]).events =
      [.failed exTask.task_id (Rat.floor ((10 : ℚ) - 0))
        (runAttempt exSettings exTask [] 0 10
          (runAttempt exSettings exTask [] 0 10 [exTask] 0 (behC7 0)).1
          (runAttempt exSettings exTask [] 0 10 [exTask] 0 (behC7 0)).2.2.1
          (behC7 1)).2.2.1
        "boom2" (pyOrStr exTask.last_output "") (exTask.chat_id.getD 0)
        exTask.message_thread_id] :=
  ⟨by norm_num [runAttempt, processStream, behC7, exSettings, exTask,
      streamCost, streamOutput, truthyStr],
   (C7_failed_event_after_retry exSettings exTask behC7 [] 0 10 [exTask]
      "boom" "boom2"
      (by norm_num [runAttempt, processStream, behC7, exSettings, exTask,
        streamCost, streamOutput, truthyStr])
      (by norm_num [runAttempt, processStream, behC7, exSettings, exTask,
        streamCost, streamOutput, truthyStr])).2.2.1⟩

end TaskCore
